import Mathlib

/-
Verification of the planning-permission decision logic in
`src/planning_permission.py` (PlanningHubChallenge).

The Python function `get_planning_permission_decision` is embedded below as a
pure Lean function over `String` and `Bool` arguments, mirroring the source
line by line:
  * Step 1 (lines 100-111): the seven universal flags are collected in a list
    and `any` of them forces the result "Y".
  * Step 2 (lines 113-137): the structure type is lowercased and dispatched to
    compute a `baseline` ("Y"/"N"); this inline block is factored out here as
    `compute_baseline` with exactly the same branching.
  * Step 3 (lines 139-144): `pd_removed_by_previous_planning` overrides the
    baseline with "Y".
Python's `str.lower()` is modelled by `pyLower`, which maps the basic-latin
lowercasing function `Char.toLower` over the characters of the string
(coinciding with Python on all ASCII data handled by this module).
-/

/-- Model of Python `str.lower()`: lowercase every character of the string
(basic-latin lowercasing, which agrees with Python on ASCII input). -/
def pyLower (s : String) : String := ⟨s.data.map Char.toLower⟩

/-- The baseline computation of Step 2 (lines 113-137 of
`planning_permission.py`): dispatch on the lowercased structure type;
gates look at `new_build_property`, fences at location and height, walls at
height, and any other structure falls back to "N". -/
def compute_baseline (location_of_enclosure : String) (height_of_enclosure : String)
    (structure_type : String) (new_build_property : Bool) : String :=
  if pyLower structure_type = "gate" then
    if new_build_property then "Y" else "N"
  else if pyLower structure_type = "fence" then
    if location_of_enclosure = "adjacent" then
      if height_of_enclosure = "up_to_1m" then "N" else "Y"
    else
      if height_of_enclosure = "above_2m" then "Y" else "N"
  else if pyLower structure_type = "wall" then
    if height_of_enclosure = "above_2m" then "Y" else "N"
  else
    "N"

/-- Embedding of `get_planning_permission_decision` (lines 61-144 of
`planning_permission.py`): Step 1 checks the list of seven universal flags,
Step 2 computes the baseline, Step 3 lets `pd_removed_by_previous_planning`
override the baseline with "Y". -/
def get_planning_permission_decision
    (location_of_enclosure : String) (height_of_enclosure : String)
    (structure_type : String)
    (listed_building : Bool) (article_2_3_land : Bool) (article_2_4_land : Bool)
    (article_4_directive : Bool) (aonb : Bool) (works_affecting_tpo : Bool)
    (face_listed_building : Bool)
    (new_build_property : Bool) (pd_removed_by_previous_planning : Bool) : String :=
  if [listed_building, article_2_3_land, article_2_4_land, article_4_directive,
      aonb, works_affecting_tpo, face_listed_building].any id then
    "Y"
  else if pd_removed_by_previous_planning then
    "Y"
  else
    compute_baseline location_of_enclosure height_of_enclosure
      structure_type new_build_property

/-- Unfolding of core's `Char.toLower` into `if` form. -/
theorem char_toLower_eq (c : Char) :
    c.toLower = if 65 ≤ c.toNat ∧ c.toNat ≤ 90 then Char.ofNat (c.toNat + 32) else c := rfl

/-- For code points below the surrogate range, `Char.ofNat` round-trips. -/
theorem char_toNat_ofNat_of_lt (n : Nat) (h : n < 55296) : (Char.ofNat n).toNat = n := by
  rw [Char.ofNat, dif_pos (Or.inl h)]
  rfl

/-- Basic-latin lowercasing is idempotent. -/
theorem char_toLower_idem (c : Char) : c.toLower.toLower = c.toLower := by
  rw [char_toLower_eq c]
  by_cases h : 65 ≤ c.toNat ∧ c.toNat ≤ 90
  · rw [if_pos h, char_toLower_eq, if_neg]
    rw [char_toNat_ofNat_of_lt (c.toNat + 32) (by omega)]
    omega
  · rw [if_neg h, char_toLower_eq, if_neg h]

/-- Mapping basic-latin lowercasing over a character list is idempotent. -/
theorem map_toLower_idem (l : List Char) :
    (l.map Char.toLower).map Char.toLower = l.map Char.toLower := by
  induction l with
  | nil => rfl
  | cons c cs ih => simp only [List.map_cons, char_toLower_idem, ih]

/-- `pyLower` is idempotent. -/
theorem pyLower_idem (s : String) : pyLower (pyLower s) = pyLower s := by
  show (⟨((s.data.map Char.toLower).map Char.toLower)⟩ : String) = ⟨s.data.map Char.toLower⟩
  rw [map_toLower_idem]

/-- When all seven universal flags are false and the pd modifier is false, the
decision is exactly the Step-2 baseline. -/
theorem gppd_pd_false (loc ht st : String) (nb : Bool) :
    get_planning_permission_decision loc ht st false false false false false false false nb false =
      compute_baseline loc ht st nb := rfl

/-- When all seven universal flags are false and the pd modifier is true, the
decision is "Y". -/
theorem gppd_pd_true (loc ht st : String) (nb : Bool) :
    get_planning_permission_decision loc ht st false false false false false false false nb true =
      "Y" := rfl

/-- Evaluation of the baseline for fences. -/
theorem baseline_fence (loc ht : String) (nb : Bool) :
    compute_baseline loc ht "fence" nb =
      if loc = "adjacent" then (if ht = "up_to_1m" then "N" else "Y")
      else (if ht = "above_2m" then "Y" else "N") := by
  unfold compute_baseline
  rw [show pyLower "fence" = "fence" from by decide]
  rw [if_neg (show ¬("fence" : String) = "gate" from by decide), if_pos rfl]

/-- Evaluation of the baseline for walls. -/
theorem baseline_wall (loc ht : String) (nb : Bool) :
    compute_baseline loc ht "wall" nb = (if ht = "above_2m" then "Y" else "N") := by
  unfold compute_baseline
  rw [show pyLower "wall" = "wall" from by decide]
  rw [if_neg (show ¬("wall" : String) = "gate" from by decide),
    if_neg (show ¬("wall" : String) = "fence" from by decide), if_pos rfl]

/-- Evaluation of the baseline for gates. -/
theorem baseline_gate (loc ht : String) (nb : Bool) :
    compute_baseline loc ht "gate" nb = (if nb then "Y" else "N") := by
  unfold compute_baseline
  rw [show pyLower "gate" = "gate" from by decide]
  rw [if_pos rfl]

/-- Evaluation of the baseline for structures whose lowercasing is none of the
three recognized names. -/
theorem baseline_other (loc ht st : String) (nb : Bool)
    (h1 : pyLower st ≠ "gate") (h2 : pyLower st ≠ "fence") (h3 : pyLower st ≠ "wall") :
    compute_baseline loc ht st nb = "N" := by
  unfold compute_baseline
  rw [if_neg h1, if_neg h2, if_neg h3]

/-- C1: for every request (any location, height and structure strings, any
values of the remaining flags), if at least one of the seven universal flags
is true then `get_planning_permission_decision` returns "Y". -/
theorem universal_override_forces_required
    (loc ht st : String) (lb a23 a24 a4 ao tpo flb nb pd : Bool)
    (h : lb = true ∨ a23 = true ∨ a24 = true ∨ a4 = true ∨
         ao = true ∨ tpo = true ∨ flb = true) :
    get_planning_permission_decision loc ht st lb a23 a24 a4 ao tpo flb nb pd = "Y" := by
  rcases h with h | h | h | h | h | h | h <;> subst h <;>
    simp [get_planning_permission_decision]

theorem universal_override_forces_required_witness :
    (true = true ∨ false = true ∨ false = true ∨ false = true ∨
     false = true ∨ false = true ∨ false = true) ∧
    get_planning_permission_decision "adjacent" "up_to_1m" "fence"
      true false false false false false false false false = "Y" :=
  ⟨Or.inl rfl,
   universal_override_forces_required "adjacent" "up_to_1m" "fence"
     true false false false false false false false false (Or.inl rfl)⟩

/-- C2: with all seven universal flags false, a true
`pd_removed_by_previous_planning` forces "Y" for every structure, location,
height and new-build value; with it false the result is exactly the Step-2
baseline. -/
theorem pd_removed_override_or_baseline (loc ht st : String) (nb : Bool) :
    get_planning_permission_decision loc ht st false false false false false false false nb true
      = "Y" ∧
    get_planning_permission_decision loc ht st false false false false false false false nb false
      = compute_baseline loc ht st nb :=
  ⟨rfl, rfl⟩

/-- C3: adjacent fence with all universal flags false and pd false: the result
is "N" exactly when the height is "up_to_1m", and "Y" for every other height
value (in particular the other three enum heights). -/
theorem adjacent_fence_height_rule (ht : String) (nb : Bool) :
    (get_planning_permission_decision "adjacent" ht "fence"
        false false false false false false false nb false = "N" ↔ ht = "up_to_1m") ∧
    get_planning_permission_decision "adjacent" ht "fence"
        false false false false false false false nb false =
      (if ht = "up_to_1m" then "N" else "Y") := by
  have he : get_planning_permission_decision "adjacent" ht "fence"
      false false false false false false false nb false =
      (if ht = "up_to_1m" then "N" else "Y") := by
    rw [gppd_pd_false, baseline_fence, if_pos rfl]
  refine ⟨?_, he⟩
  rw [he]
  by_cases h : ht = "up_to_1m"
  · simp [h]
  · simp [h, show ("Y" : String) ≠ "N" from by decide]

/-- C4: with all universal flags false and pd false, a not-adjacent fence and
a wall (any location) require permission exactly when the height is
"above_2m", and do not for every other height value. -/
theorem not_adjacent_fence_and_wall_height_rule (loc ht : String) (nb : Bool) :
    (get_planning_permission_decision "not_adjacent" ht "fence"
        false false false false false false false nb false = "Y" ↔ ht = "above_2m") ∧
    get_planning_permission_decision "not_adjacent" ht "fence"
        false false false false false false false nb false =
      (if ht = "above_2m" then "Y" else "N") ∧
    (get_planning_permission_decision loc ht "wall"
        false false false false false false false nb false = "Y" ↔ ht = "above_2m") ∧
    get_planning_permission_decision loc ht "wall"
        false false false false false false false nb false =
      (if ht = "above_2m" then "Y" else "N") := by
  have hf : get_planning_permission_decision "not_adjacent" ht "fence"
      false false false false false false false nb false =
      (if ht = "above_2m" then "Y" else "N") := by
    rw [gppd_pd_false, baseline_fence,
      if_neg (show ¬("not_adjacent" : String) = "adjacent" from by decide)]
  have hw : get_planning_permission_decision loc ht "wall"
      false false false false false false false nb false =
      (if ht = "above_2m" then "Y" else "N") := by
    rw [gppd_pd_false, baseline_wall]
  refine ⟨?_, hf, ?_, hw⟩
  · rw [hf]
    by_cases h : ht = "above_2m"
    · simp [h]
    · simp [h, show ("N" : String) ≠ "Y" from by decide]
  · rw [hw]
    by_cases h : ht = "above_2m"
    · simp [h]
    · simp [h, show ("N" : String) ≠ "Y" from by decide]

/-- C5: gate with all universal flags false and pd false: the result is "Y"
exactly when `new_build_property` is true, for every location and height
string — so varying location or height never changes the result for gates. -/
theorem gate_new_build_rule (loc ht : String) (nb : Bool) :
    (get_planning_permission_decision loc ht "gate"
        false false false false false false false nb false = "Y" ↔ nb = true) ∧
    get_planning_permission_decision loc ht "gate"
        false false false false false false false nb false = (if nb then "Y" else "N") := by
  have he : get_planning_permission_decision loc ht "gate"
      false false false false false false false nb false = (if nb then "Y" else "N") := by
    rw [gppd_pd_false, baseline_gate]
  refine ⟨?_, he⟩
  rw [he]
  cases nb
  · simp [show ("N" : String) ≠ "Y" from by decide]
  · simp

/-- C6 as stated is false: "FENCE" is not one of the three enum values
"fence", "wall", "gate", yet (adjacent, height above 1 m, all universal flags
false, pd false) its baseline — and the final decision — is "Y", not the "N"
fallback, because the code lowercases the structure type before matching. -/
theorem unrecognized_structure_fallback_counterexample :
    (("FENCE" : String) ≠ "fence" ∧ ("FENCE" : String) ≠ "wall" ∧
     ("FENCE" : String) ≠ "gate") ∧
    compute_baseline "adjacent" "above_1m" "FENCE" false = "Y" ∧
    get_planning_permission_decision "adjacent" "above_1m" "FENCE"
      false false false false false false false false false = "Y" ∧
    ("Y" : String) ≠ "N" := by decide

/-- C6 amended: for every request whose LOWERCASED structure type is none of
"fence", "wall", "gate", the Step-2 baseline is "N" (the fallback — no error
is signalled), and with all universal flags false and pd false the final
decision is "N". -/
theorem lowercased_unrecognized_structure_fallback (loc ht st : String) (nb : Bool)
    (h1 : pyLower st ≠ "fence") (h2 : pyLower st ≠ "wall") (h3 : pyLower st ≠ "gate") :
    compute_baseline loc ht st nb = "N" ∧
    get_planning_permission_decision loc ht st false false false false false false false nb false
      = "N" := by
  have hb := baseline_other loc ht st nb h3 h1 h2
  exact ⟨hb, by rw [gppd_pd_false]; exact hb⟩

theorem lowercased_unrecognized_structure_fallback_witness :
    (pyLower "shed" ≠ "fence" ∧ pyLower "shed" ≠ "wall" ∧ pyLower "shed" ≠ "gate") ∧
    (compute_baseline "adjacent" "above_2m" "shed" true = "N" ∧
     get_planning_permission_decision "adjacent" "above_2m" "shed"
       false false false false false false false true false = "N") :=
  ⟨⟨by decide, by decide, by decide⟩,
   lowercased_unrecognized_structure_fallback "adjacent" "above_2m" "shed" true
     (by decide) (by decide) (by decide)⟩

/-- C7: `get_planning_permission_decision` is total — for every assignment of
the three string arguments and nine boolean flags it returns "Y" or "N". -/
theorem decision_total_Y_or_N
    (loc ht st : String) (lb a23 a24 a4 ao tpo flb nb pd : Bool) :
    get_planning_permission_decision loc ht st lb a23 a24 a4 ao tpo flb nb pd = "Y" ∨
    get_planning_permission_decision loc ht st lb a23 a24 a4 ao tpo flb nb pd = "N" := by
  unfold get_planning_permission_decision compute_baseline
  split_ifs <;> simp

/-- C8: structure-type matching is case-insensitive — the decision on any
structure string equals the decision on its lowercasing; in particular
"FENCE", "Wall" and "Gate" lowercase to the recognized names. -/
theorem structure_type_case_insensitive
    (loc ht st : String) (lb a23 a24 a4 ao tpo flb nb pd : Bool) :
    get_planning_permission_decision loc ht st lb a23 a24 a4 ao tpo flb nb pd =
      get_planning_permission_decision loc ht (pyLower st) lb a23 a24 a4 ao tpo flb nb pd ∧
    pyLower "FENCE" = "fence" ∧ pyLower "Wall" = "wall" ∧ pyLower "Gate" = "gate" := by
  refine ⟨?_, by decide, by decide, by decide⟩
  unfold get_planning_permission_decision compute_baseline
  rw [pyLower_idem]

/-- C9: for a fence, any location other than exactly "adjacent" (e.g.
"Adjacent" or "") takes the not-adjacent branch: with all universal flags
false (and pd false for the final decision) the result is "Y" exactly when
the height is "above_2m". -/
theorem fence_location_exact_match (loc ht : String) (nb : Bool)
    (hloc : loc ≠ "adjacent") :
    (compute_baseline loc ht "fence" nb = "Y" ↔ ht = "above_2m") ∧
    (get_planning_permission_decision loc ht "fence"
        false false false false false false false nb false = "Y" ↔ ht = "above_2m") := by
  have he : compute_baseline loc ht "fence" nb = (if ht = "above_2m" then "Y" else "N") := by
    rw [baseline_fence, if_neg hloc]
  have hg : get_planning_permission_decision loc ht "fence"
      false false false false false false false nb false =
      (if ht = "above_2m" then "Y" else "N") := by
    rw [gppd_pd_false, he]
  rw [he, hg]
  by_cases h : ht = "above_2m"
  · simp [h]
  · simp [h, show ("N" : String) ≠ "Y" from by decide]

theorem fence_location_exact_match_witness :
    ("Adjacent" : String) ≠ "adjacent" ∧
    ((compute_baseline "Adjacent" "above_2m" "fence" false = "Y" ↔
        ("above_2m" : String) = "above_2m") ∧
     (get_planning_permission_decision "Adjacent" "above_2m" "fence"
        false false false false false false false false false = "Y" ↔
        ("above_2m" : String) = "above_2m")) :=
  ⟨by decide, fence_location_exact_match "Adjacent" "above_2m" false (by decide)⟩

/-- C10: for fences and walls the decision never depends on
`new_build_property` — two requests identical except for that flag get the
same result. -/
theorem new_build_independence_fence_wall
    (loc ht : String) (lb a23 a24 a4 ao tpo flb nb nb' pd : Bool) :
    get_planning_permission_decision loc ht "fence" lb a23 a24 a4 ao tpo flb nb pd =
      get_planning_permission_decision loc ht "fence" lb a23 a24 a4 ao tpo flb nb' pd ∧
    get_planning_permission_decision loc ht "wall" lb a23 a24 a4 ao tpo flb nb pd =
      get_planning_permission_decision loc ht "wall" lb a23 a24 a4 ao tpo flb nb' pd := by
  have hf : compute_baseline loc ht "fence" nb = compute_baseline loc ht "fence" nb' := by
    rw [baseline_fence, baseline_fence]
  have hw : compute_baseline loc ht "wall" nb = compute_baseline loc ht "wall" nb' := by
    rw [baseline_wall, baseline_wall]
  constructor
  · unfold get_planning_permission_decision
    rw [hf]
  · unfold get_planning_permission_decision
    rw [hw]
